import Mathlib

/-!
# On-call incident diagnosis environment — verification development

Shallow embedding of the session state machine, tool dispatcher and reward
scorer of `src/new_entry.py` (class `OnCallEnvironment`).  The external
platform pieces (the SQLite-backed storage engine reached through
`ctx.storage.sql.exec` and the `json` standard library) are not code of this
repository; they are abstracted as an explicit interface `Ext` supplied to
the operations, with faults modelled as `Except.error` values (a Python
exception raised inside a `try` block surfaces as an `Except.error`).
Reward arithmetic (`2.0`, `0.15`, `max(0.0, ...)`) is modelled over `ℚ`;
at every value the claims mention, IEEE double and rational evaluation give
the same decimal results.  Request payloads are typed per the data model
(string fields are strings), so dynamic type-confusion of the JSON transport
is out of scope.
-/

namespace OnCall

/-- A row of the `logs` table as the tool dispatcher reads it back
(`row.timestamp`, `row.level`, `row.service`, `row.message`, `row.metadata`);
`metadata` is the string-serialized form stored by `_populate_logs`. -/
structure SqlRow where
  timestamp : String
  level : String
  service : String
  message : String
  metadata : String
deriving Repr, DecidableEq

/-- The session's private log store: the rows of its `logs` table, in
insertion order (the auto-increment `id` column is kept implicit as the
list position). -/
abbrev LogStore := List SqlRow

/-- `{"name": ..., "status": ..., "response_time": ...}` entries of
`incident_data["environment"]["dependencies"]`. -/
structure Dependency where
  name : String
  status : String
  response_time : String
deriving Repr, DecidableEq

/-- `{"user": ..., "content": ..., "timestamp": ...}` entries of
`incident_data["environment"]["slack_messages"]`. -/
structure SlackMessage where
  user : String
  content : String
  timestamp : String
deriving Repr, DecidableEq

/-- `{"service": ..., "status": ..., "timestamp": ...}` entries of
`incident_data["environment"]["deployments"]`. -/
structure Deployment where
  service : String
  status : String
  timestamp : String
deriving Repr, DecidableEq

/-- The incident scenario produced by `_generate_incident`.  The `logs`
field already carries the serialized `metadata` string that
`_populate_logs` writes into the table via `json.dumps`. -/
structure Incident where
  alert : String
  correct_diagnosis : String
  dependencies : List Dependency
  slack_messages : List SlackMessage
  deployments : List Deployment
  logs : List SqlRow
deriving Repr, DecidableEq

/-- `_generate_incident` from `src/new_entry.py`: the fixed scenario.
Metadata strings are the deterministic `json.dumps` renderings applied at
seeding time by `_populate_logs`. -/
def generateIncident : Incident where
  alert := "High database response times detected. Users reporting slow page loads."
  correct_diagnosis := "database connection pool exhausted"
  dependencies :=
    [ ⟨"postgres-primary", "degraded", "5000ms"⟩,
      ⟨"redis", "healthy", "10ms"⟩ ]
  slack_messages :=
    [ ⟨"alice", "Seeing timeouts on checkout", "10:30"⟩,
      ⟨"bob", "DB connections maxed out", "10:32"⟩ ]
  deployments :=
    [ ⟨"web-app", "success", "09:00"⟩ ]
  logs :=
    [ ⟨"2025-07-20T10:31:00Z", "ERROR", "postgres", "Connection pool exhausted",
        "\x7b\"pool_size\": 20, \"active_connections\": 20\x7d"⟩,
      ⟨"2025-07-20T10:30:30Z", "WARN", "postgres", "High response time: 4500ms",
        "\x7b\"query\": \"SELECT * FROM users\"\x7d"⟩,
      ⟨"2025-07-20T10:30:00Z", "ERROR", "web-app", "Database timeout after 5000ms",
        "\x7b\"endpoint\": \"/checkout\"\x7d"⟩,
      ⟨"2025-07-20T10:29:45Z", "INFO", "postgres", "Connection pool at 95% capacity",
        "\x7b\"pool_size\": 20, \"active_connections\": 19\x7d"⟩,
      ⟨"2025-07-20T10:29:00Z", "WARN", "web-app", "Slow query detected: 3200ms",
        "\x7b\"query_id\": \"q123\"\x7d"⟩ ]

/-- Session state: the mutable instance attributes of `OnCallEnvironment`. -/
structure Session where
  tool_calls_made : Nat
  max_tool_calls : Nat
  completed : Bool
  incident : Incident
  system_prompt : String
  log_store : LogStore
deriving Repr, DecidableEq

/-- `_get_default_system_prompt` from `src/new_entry.py`. -/
def defaultSystemPrompt : String :=
  "You are an expert on-call engineer responsible for diagnosing production incidents quickly and accurately.\n\nYour goal is to identify the root cause of incidents using the available tools with maximum efficiency.\n\nAVAILABLE TOOLS:\n- check_dependencies: Check status of service dependencies  \n- check_slack: Search recent team Slack messages for context\n- check_deployments: Check recent deployment history\n- query_logs: Execute SQL queries on the observability logs database\n\n{TOOL_DEFINITIONS}\n\nCONSTRAINTS:\n- You have a maximum of 10 tool calls to make your diagnosis\n- You must submit a diagnosis before running out of tool calls\n- Be efficient - you get bonus rewards for correct diagnoses with fewer tool calls\n\nYour diagnosis should be concise and specific (e.g., \"database connection pool exhausted\", \"memory leak in web service\", \"network timeout to payment API\").\n\nRemember: Accuracy is more important than speed, but efficiency is rewarded."

/-- `__init__`: fresh session for a key — counter 0, budget 10, not
completed, fixed incident, log store seeded 1:1 from the incident's logs. -/
def initSession : Session where
  tool_calls_made := 0
  max_tool_calls := 10
  completed := false
  incident := generateIncident
  system_prompt := defaultSystemPrompt
  log_store := generateIncident.logs

/-- One parameter of a tool's JSON-schema-like parameter spec. -/
structure ParamSpec where
  pname : String
  ptype : String
  pdescription : String
deriving Repr, DecidableEq

/-- One entry of `_get_tools_definitions`. -/
structure ToolDef where
  ttype : String
  name : String
  description : String
  params : List ParamSpec
  required : List String
deriving Repr, DecidableEq

/-- `_get_tools_definitions` from `src/new_entry.py`. -/
def toolsDefinitions : List ToolDef :=
  [ ⟨"function", "check_dependencies", "Check status of service dependencies",
      [⟨"query", "string", "Optional: filter by service name"⟩], []⟩,
    ⟨"function", "check_slack", "Search recent Slack messages from team members",
      [⟨"query", "string", "Optional: search term to filter messages"⟩], []⟩,
    ⟨"function", "check_deployments", "Check recent deployment status and history",
      [⟨"query", "string", "Optional: filter by service name"⟩], []⟩,
    ⟨"function", "query_logs", "Execute SQL query on logs database. Table schema: logs(id INTEGER, timestamp TEXT, level TEXT, service TEXT, message TEXT, metadata TEXT)",
      [⟨"sql_query", "string", "SQL SELECT query to execute against logs table. Use LIMIT to control result size."⟩],
      ["sql_query"]⟩ ]

/-- Log entry returned by `query_logs`, with `metadata` deserialized by the
external JSON library into some value of type `M`. -/
structure LogEntry (M : Type) where
  timestamp : String
  level : String
  service : String
  message : String
  metadata : M
deriving Repr, DecidableEq

/-- The external collaborators abstracted away from the core: the
SQL-capable relational store behind `ctx.storage.sql.exec` and the `json`
standard library.  `execSql` takes the current table contents and a query
and returns either result rows plus the table contents afterwards, or the
message of a raised exception; `jsonLoads` is `json.loads` with parse
failures as `Except.error`; `emptyObj` is the empty mapping `\x7b\x7d`;
`dumpTools` is `json.dumps(tools, indent=2)`. -/
structure Ext (M : Type) where
  execSql : LogStore → String → Except String (List SqlRow × LogStore)
  jsonLoads : String → Except String M
  emptyObj : M
  dumpTools : List ToolDef → String

/-- In-band payload returned by `_execute_tool` (a success-level value;
tool failures appear here as an `error` key, never as a raised fault). -/
inductive ToolResponse (M : Type) where
  | dependencies (deps : List Dependency)
  | messages (msgs : List SlackMessage)
  | deployments (ds : List Deployment)
  | logsResult (logs : List (LogEntry M)) (total_found : Nat)
      (query_executed : String) (warning : Option String)
  | inband (error : String)
deriving Repr, DecidableEq

/-- `DiagnosisResult` as returned once by `submit_diagnosis`. -/
structure DiagnosisResult where
  correct : Bool
  correct_diagnosis : String
  agent_diagnosis : String
  primary_reward : ℚ
  efficiency_reward : ℚ
  total_reward : ℚ
  tool_calls_used : Nat
  completed : Bool
deriving Repr, DecidableEq

/-- A structured response produced by one of the six actions.
`protoError` is the non-success (HTTP 400) channel carrying an `error`
field; everything else is a success response. -/
inductive Response (M : Type) where
  | initialState (incident_alert : String) (max_tool_calls : Nat) (calls_remaining : Int)
  | tools (defs : List ToolDef)
  | systemPrompt (system_prompt : String)
  | promptUpdated (status : String)
  | protoError (error : String)
  | toolOk (tool_response : ToolResponse M) (calls_remaining : Int) (call_number : Nat)
  | diagnosis (result : DiagnosisResult)
deriving Repr, DecidableEq

/-- What `on_fetch` hands back to the caller: a structured response, the
Python value `None` (the dispatch falls through on an unknown action), or
an uncaught exception escaping the handler. -/
inductive Outcome (M : Type) where
  | resp (r : Response M)
  | noResponse
  | raised (msg : String)
deriving Repr, DecidableEq

/-- Python string truthiness for an optional field: `None` and the empty
string are falsy (`if not tool_name` / `if new_prompt`). -/
def truthyStr : Option String → Bool
  | none => false
  | some s => s != ""

/-- `needle in hay` for Python strings on char lists: substring test. -/
def listContainsSub : List Char → List Char → Bool
  | needle, [] => needle.isEmpty
  | needle, c :: t => List.isPrefixOf needle (c :: t) || listContainsSub needle t

/-- Python `needle in hay` substring containment for strings. -/
def strContains (hay needle : String) : Bool :=
  listContainsSub needle.toList hay.toList

/-- Python `str.strip()`: drop leading and trailing whitespace. -/
def pyStrip (s : String) : String :=
  ⟨((s.toList.dropWhile Char.isWhitespace).reverse.dropWhile Char.isWhitespace).reverse⟩

/-- Python `str.upper()` (ASCII as in the source's usage). -/
def pyUpper (s : String) : String := ⟨s.toList.map Char.toUpper⟩

/-- Python `str.lower()` (ASCII as in the source's usage). -/
def pyLower (s : String) : String := ⟨s.toList.map Char.toLower⟩

/-- Python `s.startswith(pre)`. -/
def pyStartsWith (s pre : String) : Bool := List.isPrefixOf pre.toList s.toList

/-- The transient tool call extracted from the request:
`tool_call.get("name")` and `tool_call.get("arguments", ...)`. -/
structure ToolArgs where
  query : Option String := none
  sql_query : Option String := none
deriving Repr, DecidableEq

/-- `data.get("tool_call", ...)` with both fields optional. -/
structure ToolCallData where
  name : Option String := none
  arguments : ToolArgs := {}
deriving Repr, DecidableEq

section Operations

variable {M : Type}

/-- `json.loads(row.metadata) if row.metadata else \x7b\x7d` followed by the
row-to-entry mapping of `_query_logs_db`; a parse fault propagates. -/
def mapRow (ext : Ext M) (r : SqlRow) : Except String (LogEntry M) :=
  match (if r.metadata != "" then ext.jsonLoads r.metadata else .ok ext.emptyObj) with
  | .ok m => .ok ⟨r.timestamp, r.level, r.service, r.message, m⟩
  | .error e => .error e

/-- The `for row in results` loop of `_query_logs_db`: builds the full list
of entries in result order, stopping at the first raised fault. -/
def mapRows (ext : Ext M) : List SqlRow → Except String (List (LogEntry M))
  | [] => .ok []
  | r :: rs =>
    match mapRow ext r with
    | .error e => .error e
    | .ok entry =>
      match mapRows ext rs with
      | .error e => .error e
      | .ok entries => .ok (entry :: entries)

/-- The truncation warning emitted when more than 50 rows match. -/
def truncationWarning (total_found : Nat) : String :=
  "Query returned " ++ toString total_found ++
    " results, showing first 50. Consider adding additional filters (WHERE, LIMIT) to narrow results."

/-- `_query_logs_db` from `src/new_entry.py`: empty-query check, then the
prefix-only SELECT gate on the stripped upper-cased text, then execution
with every fault (including metadata parse faults in the row loop) caught
and converted to the in-band `SQL execution failed: ...` form, then the
result mapping and the greater-than-50 truncation. -/
def query_logs_db (ext : Ext M) (store : LogStore) (sql_query : String) :
    ToolResponse M × LogStore :=
  if sql_query = "" then (.inband "No SQL query provided", store)
  else if ¬ (pyStartsWith (pyUpper (pyStrip sql_query)) "SELECT") then
    (.inband "Only SELECT queries are allowed", store)
  else
    match ext.execSql store sql_query with
    | .error e => (.inband ("SQL execution failed: " ++ e), store)
    | .ok (rows, store1) =>
      match mapRows ext rows with
      | .error e => (.inband ("SQL execution failed: " ++ e), store1)
      | .ok logs =>
        let total_found := logs.length
        if 50 < logs.length then
          (.logsResult (logs.take 50) total_found sql_query
             (some (truncationWarning total_found)), store1)
        else
          (.logsResult logs logs.length sql_query none, store1)

/-- The four recognized tool names. -/
def isKnownTool (name : String) : Bool :=
  name = "check_dependencies" || name = "check_slack" ||
    name = "check_deployments" || name = "query_logs"

/-- `_execute_tool` from `src/new_entry.py`: dispatch by exact name match;
the three list tools filter by case-insensitive substring containment when
the `query` argument is truthy; unknown names yield the in-band
`Unknown tool: <name>` object. -/
def execute_tool (ext : Ext M) (incident : Incident) (store : LogStore)
    (tool_name : String) (args : ToolArgs) : ToolResponse M × LogStore :=
  if tool_name = "check_dependencies" then
    let query := args.query.getD ""
    let deps := incident.dependencies
    let deps := if query != "" then
        deps.filter (fun d => strContains (pyLower d.name) (pyLower query)) else deps
    (.dependencies deps, store)
  else if tool_name = "check_slack" then
    let query := args.query.getD ""
    let messages := incident.slack_messages
    let messages := if query != "" then
        messages.filter (fun m => strContains (pyLower m.content) (pyLower query)) else messages
    (.messages messages, store)
  else if tool_name = "check_deployments" then
    let query := args.query.getD ""
    let deployments := incident.deployments
    let deployments := if query != "" then
        deployments.filter (fun d => strContains (pyLower d.service) (pyLower query)) else deployments
    (.deployments deployments, store)
  else if tool_name = "query_logs" then
    query_logs_db ext store (args.sql_query.getD "")
  else
    (.inband ("Unknown tool: " ++ tool_name), store)

/-- `use_tool` from `src/new_entry.py`: completed-check, then budget-check,
then name-presence check, then the increment of `tool_calls_made` followed
by tool dispatch; the response reports `calls_remaining` and `call_number`
computed after the increment. -/
def use_tool (ext : Ext M) (s : Session) (tc : ToolCallData) :
    Response M × Session :=
  if s.completed then (.protoError "Environment completed", s)
  else if s.max_tool_calls ≤ s.tool_calls_made then
    (.protoError "Max tool calls exceeded", s)
  else if ¬ truthyStr tc.name then (.protoError "Missing tool name", s)
  else
    let s1 : Session := { s with tool_calls_made := s.tool_calls_made + 1 }
    let out := execute_tool ext s.incident s.log_store (tc.name.getD "") tc.arguments
    let s2 : Session := { s1 with log_store := out.2 }
    (.toolOk out.1 ((s2.max_tool_calls : Int) - (s2.tool_calls_made : Int))
       s2.tool_calls_made, s2)

/-- `submit_diagnosis` from `src/new_entry.py`.  The completed-check comes
first; then `completed` is set before the diagnosis string is touched, so a
missing (`None`) diagnosis raises `AttributeError` out of the handler with
the session already marked completed.  Case-insensitive equality is
`.lower() == .lower()`. -/
def submit_diagnosis (s : Session) (diagnosis : Option String) :
    Outcome M × Session :=
  if s.completed then (.resp (.protoError "Already completed"), s)
  else
    let s1 : Session := { s with completed := true }
    match diagnosis with
    | none => (.raised "AttributeError: NoneType has no attribute lower", s1)
    | some d =>
      let correct := pyLower d == pyLower s.incident.correct_diagnosis
      let primary_reward : ℚ := if correct then 2.0 else 0.0
      let efficiency_reward : ℚ :=
        if correct then max 0.0 (1.0 - 0.15 * ((s.tool_calls_made : ℚ) - 1)) else 0.0
      let total_reward := primary_reward + efficiency_reward
      (.resp (.diagnosis
        { correct := correct
          correct_diagnosis := s.incident.correct_diagnosis
          agent_diagnosis := d
          primary_reward := primary_reward
          efficiency_reward := efficiency_reward
          total_reward := total_reward
          tool_calls_used := s.tool_calls_made
          completed := true }), s1)

/-- The request envelope dispatched by `on_fetch`: the six recognized
actions with their action-specific fields, plus the fall-through case for
an unknown or missing `action` string. -/
inductive ActionData where
  | get_initial_state
  | get_tools
  | get_system_prompt
  | update_system_prompt (system_prompt : Option String)
  | use_tool (tool_call : Option ToolCallData)
  | submit_diagnosis (diagnosis : Option String)
  | unknown (action : Option String)
deriving Repr, DecidableEq

/-- `get_system_prompt`: the current prompt with the literal
`{TOOL_DEFINITIONS}` placeholder substituted by the serialized tool
definitions. -/
def formattedSystemPrompt (ext : Ext M) (s : Session) : String :=
  s.system_prompt.replace "{TOOL_DEFINITIONS}" (ext.dumpTools toolsDefinitions)

/-- `on_fetch` of the durable object: dispatch on the `action` string.  An
unrecognized action falls off the `if`/`elif` chain, returning Python
`None` (no response object at all). -/
def handle (ext : Ext M) (s : Session) : ActionData → Outcome M × Session
  | .get_initial_state =>
    (.resp (.initialState s.incident.alert s.max_tool_calls
       ((s.max_tool_calls : Int) - (s.tool_calls_made : Int))), s)
  | .get_tools => (.resp (.tools toolsDefinitions), s)
  | .get_system_prompt => (.resp (.systemPrompt (formattedSystemPrompt ext s)), s)
  | .update_system_prompt p =>
    if truthyStr p then
      (.resp (.promptUpdated "System prompt udpated"), { s with system_prompt := p.getD "" })
    else (.resp (.protoError "No system prompt provided"), s)
  | .use_tool tc =>
    let out := OnCall.use_tool ext s (tc.getD {})
    (.resp out.1, out.2)
  | .submit_diagnosis d => OnCall.submit_diagnosis s d
  | .unknown _ => (.noResponse, s)

/-- Run a sequence of actions from a state, keeping only the final state. -/
def runActions (ext : Ext M) (s : Session) (acts : List ActionData) : Session :=
  acts.foldl (fun st a => (handle ext st a).2) s

/-- The `calls_remaining` field of a response, when the response reports
one (`get_initial_state` and successful `use_tool` responses do). -/
def callsRemainingReported : Response M → Option Int
  | .initialState _ _ r => some r
  | .toolOk _ r _ => some r
  | _ => none

end Operations

/-- A trivial instantiation of the external interface (empty store results,
unit metadata), used to evaluate the model on concrete inputs. -/
def extTriv : Ext Unit where
  execSql := fun st _ => .ok ([], st)
  jsonLoads := fun _ => .ok ()
  emptyObj := ()
  dumpTools := fun _ => ""

/-- An instantiation whose SQL engine raises on every query, used to
evaluate fault-conversion claims at concrete inputs. -/
def extRaise : Ext Unit where
  execSql := fun _ _ => .error "disk I O error"
  jsonLoads := fun _ => .ok ()
  emptyObj := ()
  dumpTools := fun _ => ""

/-- A completed session, used to evaluate claims at concrete inputs. -/
def completedSession : Session := { initSession with completed := true }

/-- A session whose budget is exhausted. -/
def exhaustedSession : Session := { initSession with tool_calls_made := 10 }

/-- C1: for every `use_tool` request the precondition checks apply in this
exact order — completed first (regardless of budget or tool name), then
budget (regardless of tool-name validity), then name presence; only when
all three pass is the call counted and the tool executed. -/
theorem C1_use_tool_check_order {M : Type} (ext : Ext M) (s : Session) (tc : ToolCallData) :
    (s.completed = true → use_tool ext s tc = (.protoError "Environment completed", s)) ∧
    (s.completed = false → s.max_tool_calls ≤ s.tool_calls_made →
      use_tool ext s tc = (.protoError "Max tool calls exceeded", s)) ∧
    (s.completed = false → s.tool_calls_made < s.max_tool_calls →
      truthyStr tc.name = false →
      use_tool ext s tc = (.protoError "Missing tool name", s)) ∧
    (s.completed = false → s.tool_calls_made < s.max_tool_calls →
      truthyStr tc.name = true →
      (use_tool ext s tc).2.tool_calls_made = s.tool_calls_made + 1 ∧
      (use_tool ext s tc).1 =
        .toolOk (execute_tool ext s.incident s.log_store (tc.name.getD "") tc.arguments).1
          ((s.max_tool_calls : Int) - ((s.tool_calls_made : Int) + 1))
          (s.tool_calls_made + 1)) := by
  refine ⟨fun h1 => ?_, fun h1 h2 => ?_, fun h1 h2 h3 => ?_, fun h1 h2 h3 => ?_⟩
  · simp [use_tool, h1]
  · simp [use_tool, h1, h2]
  · simp [use_tool, h1, Nat.not_le.mpr h2, h3]
  · simp [use_tool, h1, Nat.not_le.mpr h2, h3, Nat.cast_add, Nat.cast_one]

/-- Witness for C1: each branch of the precedence, evaluated concretely —
a completed session with an exhausted budget and a bad name reports
`Environment completed`; an exhausted budget with a missing name reports
`Max tool calls exceeded`; a fresh session with a missing name reports
`Missing tool name`; a fresh session with an unknown name is counted and
dispatched. -/
theorem C1_use_tool_check_order_witness :
    (use_tool extTriv { completedSession with tool_calls_made := 10 } {} =
      (.protoError "Environment completed", { completedSession with tool_calls_made := 10 })) ∧
    (use_tool extTriv exhaustedSession {} =
      (.protoError "Max tool calls exceeded", exhaustedSession)) ∧
    (use_tool extTriv initSession {} = (.protoError "Missing tool name", initSession)) ∧
    ((use_tool extTriv initSession { name := some "bogus" }).2.tool_calls_made = 0 + 1 ∧
      (use_tool extTriv initSession { name := some "bogus" }).1 =
        .toolOk (execute_tool extTriv initSession.incident initSession.log_store
            ((some "bogus").getD "") {}).1 ((10 : Int) - ((0 : Int) + 1)) (0 + 1)) :=
  ⟨(C1_use_tool_check_order extTriv _ _).1 rfl,
   (C1_use_tool_check_order extTriv _ _).2.1 rfl (by decide),
   (C1_use_tool_check_order extTriv _ _).2.2.1 rfl (by decide) rfl,
   (C1_use_tool_check_order extTriv _ _).2.2.2 rfl (by decide) rfl⟩

/-- C2: `submit_diagnosis` on a non-completed session returns a
`DiagnosisResult` where `correct` is case-insensitive exact equality,
`primary_reward = 2.0` iff correct, `efficiency_reward =
max(0.0, 1.0 - 0.15*(tool_calls_made - 1))` iff correct, and
`total_reward` is their sum; in particular a correct diagnosis with one
call scores `(2.0, 1.0, 3.0)` and with five calls `(2.0, 0.4, 2.4)`. -/
theorem C2_submit_diagnosis_rewards {M : Type} (s : Session) (d : String)
    (hs : s.completed = false) :
    ∃ res : DiagnosisResult,
      (submit_diagnosis (M := M) s (some d)).1 = .resp (.diagnosis res) ∧
      res.correct = (pyLower d == pyLower s.incident.correct_diagnosis) ∧
      res.primary_reward = (if res.correct then (2.0 : ℚ) else 0.0) ∧
      res.efficiency_reward =
        (if res.correct then max 0.0 (1.0 - 0.15 * ((s.tool_calls_made : ℚ) - 1)) else 0.0) ∧
      res.total_reward = res.primary_reward + res.efficiency_reward ∧
      (res.correct = true → s.tool_calls_made = 1 →
        res.primary_reward = 2.0 ∧ res.efficiency_reward = 1.0 ∧ res.total_reward = 3.0) ∧
      (res.correct = true → s.tool_calls_made = 5 →
        res.efficiency_reward = 0.4 ∧ res.total_reward = 2.4) := by
  unfold submit_diagnosis
  simp only [hs, Bool.false_eq_true, if_false]
  refine ⟨_, rfl, rfl, rfl, rfl, rfl, fun hc h1 => ?_, fun hc h5 => ?_⟩
  · simp only at hc
    simp only [hc, h1, if_true]
    norm_num
  · simp only at hc
    simp only [hc, h5, if_true]
    norm_num

/-- Witness for C2: the fixed incident diagnosed case-insensitively
correctly after one tool call scores `(2.0, 1.0, 3.0)`. -/
theorem C2_submit_diagnosis_rewards_witness :
    ∃ res : DiagnosisResult,
      (submit_diagnosis (M := Unit) { initSession with tool_calls_made := 1 }
          (some "Database Connection Pool Exhausted")).1 = .resp (.diagnosis res) ∧
      res.correct = (pyLower "Database Connection Pool Exhausted" ==
        pyLower { initSession with tool_calls_made := 1 }.incident.correct_diagnosis) ∧
      res.primary_reward = (if res.correct then (2.0 : ℚ) else 0.0) ∧
      res.efficiency_reward = (if res.correct then
        max 0.0 (1.0 - 0.15 * (({ initSession with tool_calls_made := 1 }.tool_calls_made : ℚ) - 1)) else 0.0) ∧
      res.total_reward = res.primary_reward + res.efficiency_reward ∧
      (res.correct = true → { initSession with tool_calls_made := 1 }.tool_calls_made = 1 →
        res.primary_reward = 2.0 ∧ res.efficiency_reward = 1.0 ∧ res.total_reward = 3.0) ∧
      (res.correct = true → { initSession with tool_calls_made := 1 }.tool_calls_made = 5 →
        res.efficiency_reward = 0.4 ∧ res.total_reward = 2.4) :=
  C2_submit_diagnosis_rewards (M := Unit) { initSession with tool_calls_made := 1 }
    "Database Connection Pool Exhausted" rfl

/-- C5: a correct diagnosis submitted with `tool_calls_made = 0` yields
`efficiency_reward = 1.15`: the term `1.0 - 0.15*(0 - 1)` evaluates to
`1.15` and only a lower clamp applies, so the efficiency reward exceeds
`1.0`. -/
theorem C5_zero_calls_efficiency {M : Type} (s : Session) (d : String)
    (h1 : s.completed = false) (h2 : s.tool_calls_made = 0)
    (h3 : (pyLower d == pyLower s.incident.correct_diagnosis) = true) :
    ∃ res : DiagnosisResult,
      (submit_diagnosis (M := M) s (some d)).1 = .resp (.diagnosis res) ∧
      res.efficiency_reward = 1.15 ∧ (1.0 : ℚ) < res.efficiency_reward := by
  unfold submit_diagnosis
  simp only [h1, Bool.false_eq_true, if_false]
  refine ⟨_, rfl, ?_, ?_⟩ <;> simp only [h3, h2, if_true] <;> norm_num

/-- Witness for C5: zero tool calls and a case-insensitively correct
diagnosis on the fixed incident give efficiency reward `1.15 > 1`. -/
theorem C5_zero_calls_efficiency_witness :
    ∃ res : DiagnosisResult,
      (submit_diagnosis (M := Unit) initSession
          (some "Database Connection Pool Exhausted")).1 = .resp (.diagnosis res) ∧
      res.efficiency_reward = 1.15 ∧ (1.0 : ℚ) < res.efficiency_reward :=
  C5_zero_calls_efficiency (M := Unit) initSession "Database Connection Pool Exhausted"
    rfl rfl (by decide)

/-- Every action preserves a completed flag that is already set. -/
lemma handle_preserves_completed {M : Type} (ext : Ext M) (s : Session) (a : ActionData)
    (h : s.completed = true) : (handle ext s a).2.completed = true := by
  cases a with
  | update_system_prompt p =>
    by_cases hp : truthyStr p = true <;> simp [handle, hp, h]
  | use_tool tc => simp [handle, use_tool, h]
  | submit_diagnosis d => simp [handle, submit_diagnosis, h]
  | _ => simpa [handle] using h

/-- A completed flag stays set across any sequence of actions. -/
lemma runActions_preserves_completed {M : Type} (ext : Ext M) (acts : List ActionData) :
    ∀ s : Session, s.completed = true → (runActions ext s acts).completed = true := by
  induction acts with
  | nil => exact fun s h => h
  | cons a t ih =>
    exact fun s h => ih (handle ext s a).2 (handle_preserves_completed ext s a h)

/-- C4: once `completed = true` nothing succeeds again — `use_tool` always
answers the completed error, `submit_diagnosis` always answers the
already-completed error with no reward recomputed, a first successful (or
even faulting) submission sets `completed`, and the flag persists across
every further action sequence, so `submit_diagnosis` succeeds at most once
per session. -/
theorem C4_completed_terminal {M : Type} (ext : Ext M) (s : Session) :
    (s.completed = true → ∀ tc : ToolCallData,
      use_tool ext s tc = (.protoError "Environment completed", s)) ∧
    (s.completed = true → ∀ d : Option String,
      submit_diagnosis (M := M) s d = (.resp (.protoError "Already completed"), s)) ∧
    (s.completed = false → ∀ d : Option String,
      (submit_diagnosis (M := M) s d).2.completed = true) ∧
    (s.completed = true → ∀ acts : List ActionData,
      (runActions ext s acts).completed = true) := by
  refine ⟨fun h tc => ?_, fun h d => ?_, fun h d => ?_, fun h acts => ?_⟩
  · simp [use_tool, h]
  · simp [submit_diagnosis, h]
  · cases d <;> simp [submit_diagnosis, h]
  · exact runActions_preserves_completed ext acts s h

/-- Witness for C4: on a concretely completed session, `use_tool` and
`submit_diagnosis` return the respective errors and leave state untouched;
a first submission on the fresh session completes it, and the flag
survives a subsequent action. -/
theorem C4_completed_terminal_witness :
    (use_tool extTriv completedSession { name := some "check_slack" } =
      (.protoError "Environment completed", completedSession)) ∧
    (submit_diagnosis (M := Unit) completedSession (some "x") =
      (.resp (.protoError "Already completed"), completedSession)) ∧
    ((submit_diagnosis (M := Unit) initSession (some "x")).2.completed = true) ∧
    ((runActions extTriv completedSession [.get_initial_state, .use_tool none]).completed = true) :=
  ⟨(C4_completed_terminal extTriv completedSession).1 rfl _,
   (C4_completed_terminal extTriv completedSession).2.1 rfl _,
   (C4_completed_terminal (M := Unit) extTriv initSession).2.2.1 rfl _,
   (C4_completed_terminal extTriv completedSession).2.2.2 rfl _⟩

/-- C6: no fault escapes `use_tool` — the action always produces a
structured response for every tool name and arguments; an unknown name
becomes the in-band `Unknown tool: <name>` payload, and an execution fault
raised by the SQL engine becomes the in-band `SQL execution failed: ...`
payload. -/
theorem C6_no_fault_escapes {M : Type} (ext : Ext M) (s : Session) (tc : Option ToolCallData) :
    (∃ r : Response M, (handle ext s (.use_tool tc)).1 = .resp r) ∧
    (∀ (name : String) (args : ToolArgs) (store : LogStore), isKnownTool name = false →
      execute_tool ext s.incident store name args =
        (.inband ("Unknown tool: " ++ name), store)) ∧
    (∀ (q : String) (store : LogStore) (e : String), ext.execSql store q = .error e →
      q ≠ "" → pyStartsWith (pyUpper (pyStrip q)) "SELECT" = true →
      (query_logs_db ext store q).1 = .inband ("SQL execution failed: " ++ e)) := by
  refine ⟨⟨(use_tool ext s (tc.getD {})).1, rfl⟩, fun name args store h => ?_,
    fun q store e he hq hsel => ?_⟩
  · simp only [isKnownTool, Bool.or_eq_false_iff, decide_eq_false_iff_not] at h
    simp [execute_tool, h.1.1.1, h.1.1.2, h.1.2, h.2]
  · simp [query_logs_db, hq, hsel, he]

/-- Witness for C6: with an engine that always raises, a `use_tool` request
still yields a response; the unknown name `bogus` yields its in-band error;
a failing `SELECT` yields the in-band SQL failure. -/
theorem C6_no_fault_escapes_witness :
    (∃ r : Response Unit,
      (handle extRaise initSession
        (.use_tool (some ⟨some "query_logs", ⟨none, some "SELECT * FROM logs"⟩⟩))).1 = .resp r) ∧
    (execute_tool extRaise initSession.incident [] "bogus" {} =
      (.inband ("Unknown tool: " ++ "bogus"), [])) ∧
    ((query_logs_db extRaise [] "SELECT * FROM logs").1 =
      .inband ("SQL execution failed: " ++ "disk I O error")) :=
  ⟨(C6_no_fault_escapes extRaise initSession _).1,
   (C6_no_fault_escapes extRaise initSession none).2.1 "bogus" {} [] (by decide),
   (C6_no_fault_escapes extRaise initSession none).2.2 "SELECT * FROM logs" [] _
     rfl (by decide) (by decide)⟩

/-- C8: `query_logs` applies its empty-query check before the SELECT gate —
an empty (or absent) query answers `No SQL query provided`; a non-empty
query whose stripped, upper-cased text does not begin with `SELECT`
(for example `DELETE FROM logs`) answers `Only SELECT queries are allowed`
and leaves the log store contents unchanged. -/
theorem C8_select_gate {M : Type} (ext : Ext M) (store : LogStore) (q : String) :
    (q ≠ "" → pyStartsWith (pyUpper (pyStrip q)) "SELECT" = false →
      query_logs_db ext store q = (.inband "Only SELECT queries are allowed", store)) ∧
    (query_logs_db ext store "" = (.inband "No SQL query provided", store)) ∧
    (query_logs_db ext store "DELETE FROM logs" =
      (.inband "Only SELECT queries are allowed", store)) ∧
    (∀ inc : Incident, execute_tool ext inc store "query_logs" {} =
      (.inband "No SQL query provided", store)) := by
  have hdel : pyStartsWith (pyUpper (pyStrip "DELETE FROM logs")) "SELECT" = false := by decide
  refine ⟨fun hq hsel => ?_, ?_, ?_, fun inc => ?_⟩
  · simp [query_logs_db, hq, hsel]
  · simp [query_logs_db]
  · simp [query_logs_db, hdel]
  · simp [execute_tool, query_logs_db]

/-- Witness for C8: the non-SELECT statement `delete from logs` on the
seeded store answers the gate error with the store intact. -/
theorem C8_select_gate_witness :
    query_logs_db extTriv initSession.log_store "delete from logs" =
      (.inband "Only SELECT queries are allowed", initSession.log_store) :=
  (C8_select_gate extTriv initSession.log_store "delete from logs").1
    (by decide) (by decide)

/-- C9: a successful `query_logs` execution returning more than 50 entries
is truncated to the first 50 in result order, reports the untruncated count
as `total_found` together with a non-empty warning, and echoes the query
text; with at most 50 entries the full list is returned, again echoing the
query. -/
theorem C9_truncation {M : Type} (ext : Ext M) (store store1 : LogStore) (q : String)
    (rows : List SqlRow) (entries : List (LogEntry M))
    (hq : q ≠ "") (hsel : pyStartsWith (pyUpper (pyStrip q)) "SELECT" = true)
    (hexec : ext.execSql store q = .ok (rows, store1))
    (hmap : mapRows ext rows = .ok entries) :
    (50 < entries.length →
      (query_logs_db ext store q).1 =
        .logsResult (entries.take 50) entries.length q
          (some (truncationWarning entries.length)) ∧
      (entries.take 50).length = 50 ∧
      truncationWarning entries.length ≠ "") ∧
    (entries.length ≤ 50 →
      (query_logs_db ext store q).1 = .logsResult entries entries.length q none) := by
  have base : query_logs_db ext store q =
      (if 50 < entries.length then
        (.logsResult (entries.take 50) entries.length q
          (some (truncationWarning entries.length)), store1)
      else (.logsResult entries entries.length q none, store1)) := by
    simp [query_logs_db, hq, hsel, hexec, hmap]
  refine ⟨fun hlen => ?_, fun hlen => ?_⟩
  · rw [base, if_pos hlen]
    refine ⟨rfl, by simp [List.length_take]; omega, ?_⟩
    simp [truncationWarning, String.ext_iff]
  · rw [base, if_neg (by omega)]

/-- An engine returning sixty fixed rows, to exercise truncation. -/
def extSixty : Ext Unit where
  execSql := fun st _ => .ok (List.replicate 60 ⟨"t", "INFO", "svc", "msg", ""⟩, st)
  jsonLoads := fun _ => .ok ()
  emptyObj := ()
  dumpTools := fun _ => ""

/-- The sixty mapped entries produced by `extSixty`. -/
def sixtyEntries : List (LogEntry Unit) := List.replicate 60 ⟨"t", "INFO", "svc", "msg", ()⟩

/-- Witness for C9: a `SELECT` matching 60 rows yields exactly the first 50
entries, `total_found = 60`, and a non-empty warning. -/
theorem C9_truncation_witness :
    (query_logs_db extSixty [] "SELECT * FROM logs").1 =
      .logsResult (sixtyEntries.take 50) sixtyEntries.length "SELECT * FROM logs"
        (some (truncationWarning sixtyEntries.length)) ∧
    (sixtyEntries.take 50).length = 50 ∧
    truncationWarning sixtyEntries.length ≠ "" :=
  (C9_truncation extSixty [] [] "SELECT * FROM logs"
      (List.replicate 60 ⟨"t", "INFO", "svc", "msg", ""⟩) sixtyEntries
      (by decide) (by decide) rfl rfl).1 (by decide)

/-- The tool-dispatch frame on the store: for a read-only engine,
`execute_tool` hands back the store it was given, whatever the tool. -/
lemma execute_tool_store_frame {M : Type} (ext : Ext M)
    (hro : ∀ store q rows store1, ext.execSql store q = .ok (rows, store1) → store1 = store)
    (inc : Incident) (store : LogStore) (tool_name : String) (args : ToolArgs) :
    (execute_tool ext inc store tool_name args).2 = store := by
  unfold execute_tool query_logs_db
  split_ifs <;> try rfl
  rcases hx : ext.execSql store (args.sql_query.getD "") with e | pair
  · simp [hx]
  · obtain ⟨rows, store1⟩ := pair
    have := hro _ _ _ _ hx
    subst this
    rcases hm : mapRows ext rows with e | entries <;> simp [hx, hm]
    split_ifs <;> rfl

/-- C10: a `use_tool` call passing all three checks increments
`tool_calls_made` by exactly one before dispatch and never rolls it back —
with a read-only engine the post-state is the pre-state with only the
counter bumped, even when the dispatched tool answers an in-band error;
an unknown name in particular yields `Unknown tool: <name>` while
consuming exactly that single unit of budget. -/
theorem C10_use_tool_frame {M : Type} (ext : Ext M) (s : Session) (tc : ToolCallData)
    (hro : ∀ store q rows store1, ext.execSql store q = .ok (rows, store1) → store1 = store)
    (h1 : s.completed = false) (h2 : s.tool_calls_made < s.max_tool_calls)
    (h3 : truthyStr tc.name = true) :
    (use_tool ext s tc).2 = { s with tool_calls_made := s.tool_calls_made + 1 } ∧
    (∀ name : String, tc.name = some name → isKnownTool name = false →
      (use_tool ext s tc).1 =
        .toolOk (.inband ("Unknown tool: " ++ name))
          ((s.max_tool_calls : Int) - ((s.tool_calls_made : Int) + 1))
          (s.tool_calls_made + 1)) := by
  constructor
  · simp [use_tool, h1, Nat.not_le.mpr h2, h3,
      execute_tool_store_frame ext hro s.incident s.log_store]
  · intro name hname hunk
    simp only [isKnownTool, Bool.or_eq_false_iff, decide_eq_false_iff_not] at hunk
    rw [hname] at h3
    simp [use_tool, h1, Nat.not_le.mpr h2, h3, hname, execute_tool,
      hunk.1.1.1, hunk.1.1.2, hunk.1.2, hunk.2, Nat.cast_add, Nat.cast_one]

/-- Witness for C10: on the fresh session, the unknown tool `bogus` bumps
the counter to one, changes nothing else, and answers its in-band error. -/
theorem C10_use_tool_frame_witness :
    (use_tool extTriv initSession ⟨some "bogus", {}⟩).2 =
      { initSession with tool_calls_made := initSession.tool_calls_made + 1 } ∧
    (use_tool extTriv initSession ⟨some "bogus", {}⟩).1 =
      .toolOk (.inband ("Unknown tool: " ++ "bogus"))
        ((initSession.max_tool_calls : Int) - ((initSession.tool_calls_made : Int) + 1))
        (initSession.tool_calls_made + 1) :=
  ⟨(C10_use_tool_frame extTriv initSession ⟨some "bogus", {}⟩
      (fun _ _ _ _ h => by simp [extTriv] at h; exact h.2.symm)
      rfl (by decide) rfl).1,
   (C10_use_tool_frame extTriv initSession ⟨some "bogus", {}⟩
      (fun _ _ _ _ h => by simp [extTriv] at h; exact h.2.symm)
      rfl (by decide) rfl).2 "bogus" rfl (by decide)⟩

/-- `use_tool` keeps the call counter within the budget. -/
lemma use_tool_calls_le {M : Type} (ext : Ext M) (s : Session) (tc : ToolCallData)
    (h : s.tool_calls_made ≤ s.max_tool_calls) :
    (use_tool ext s tc).2.tool_calls_made ≤ (use_tool ext s tc).2.max_tool_calls := by
  unfold use_tool
  split_ifs with hc hb hn
  · exact h
  · exact h
  · simpa using Nat.not_le.mp hb
  · exact h

/-- Every action keeps the call counter within the budget. -/
lemma handle_calls_le {M : Type} (ext : Ext M) (s : Session) (a : ActionData)
    (h : s.tool_calls_made ≤ s.max_tool_calls) :
    (handle ext s a).2.tool_calls_made ≤ (handle ext s a).2.max_tool_calls := by
  cases a with
  | update_system_prompt p =>
    by_cases hp : truthyStr p = true <;> simpa [handle, hp] using h
  | use_tool tc => exact use_tool_calls_le ext s (tc.getD {}) h
  | submit_diagnosis d =>
    cases d <;> unfold handle submit_diagnosis <;> split_ifs <;> simpa using h
  | _ => simpa [handle] using h

/-- The budget invariant holds along every action sequence from a state
satisfying it. -/
lemma runActions_calls_le {M : Type} (ext : Ext M) (acts : List ActionData) :
    ∀ s : Session, s.tool_calls_made ≤ s.max_tool_calls →
      (runActions ext s acts).tool_calls_made ≤ (runActions ext s acts).max_tool_calls := by
  induction acts with
  | nil => exact fun s h => h
  | cons a t ih => exact fun s h => ih (handle ext s a).2 (handle_calls_le ext s a h)

/-- A `use_tool` response reporting `calls_remaining` reports exactly
`max_tool_calls - tool_calls_made` of the post-call state, and it is
non-negative (the successful branch requires budget headroom). -/
lemma use_tool_calls_remaining {M : Type} (ext : Ext M) (s : Session) (tc : ToolCallData)
    (r : Response M) (rem : Int)
    (hr : (use_tool ext s tc).1 = r) (hrem : callsRemainingReported r = some rem) :
    rem = ((use_tool ext s tc).2.max_tool_calls : Int) -
      ((use_tool ext s tc).2.tool_calls_made : Int) ∧ 0 ≤ rem := by
  revert hr
  unfold use_tool
  split_ifs with hc hb hn <;> intro hr <;> subst hr
  · simp [callsRemainingReported] at hrem
  · simp [callsRemainingReported] at hrem
  · simp only [callsRemainingReported, Option.some.injEq] at hrem
    subst hrem
    have := Nat.not_le.mp hb
    refine ⟨rfl, ?_⟩
    omega
  · simp [callsRemainingReported] at hrem

/-- Any response reporting `calls_remaining` reports exactly
`max_tool_calls - tool_calls_made` of the post-action state, a
non-negative number, provided the invariant held before the action. -/
lemma handle_calls_remaining {M : Type} (ext : Ext M) (s : Session) (a : ActionData)
    (h : s.tool_calls_made ≤ s.max_tool_calls) :
    ∀ (r : Response M) (rem : Int), (handle ext s a).1 = .resp r →
      callsRemainingReported r = some rem →
      rem = ((handle ext s a).2.max_tool_calls : Int) -
        ((handle ext s a).2.tool_calls_made : Int) ∧ 0 ≤ rem := by
  intro r rem hr hrem
  cases a with
  | get_initial_state =>
    simp only [handle, Outcome.resp.injEq] at hr
    subst hr
    simp only [callsRemainingReported, Option.some.injEq] at hrem
    subst hrem
    refine ⟨rfl, ?_⟩
    omega
  | get_tools =>
    simp only [handle, Outcome.resp.injEq] at hr
    subst hr
    simp [callsRemainingReported] at hrem
  | get_system_prompt =>
    simp only [handle, Outcome.resp.injEq] at hr
    subst hr
    simp [callsRemainingReported] at hrem
  | update_system_prompt p =>
    by_cases hp : truthyStr p = true <;>
      simp only [handle, hp, Bool.false_eq_true, if_true, if_false,
        Outcome.resp.injEq] at hr <;> subst hr <;>
      simp [callsRemainingReported] at hrem
  | use_tool tc =>
    have hx : (use_tool ext s (tc.getD {})).1 = r := by simpa [handle] using hr
    exact use_tool_calls_remaining ext s (tc.getD {}) r rem hx hrem
  | submit_diagnosis d =>
    revert hr
    unfold handle submit_diagnosis
    split_ifs with hc
    · intro hr
      simp only [Outcome.resp.injEq] at hr
      subst hr
      simp [callsRemainingReported] at hrem
    · cases d with
      | none => intro hr; exact absurd hr (by simp)
      | some d0 =>
        intro hr
        simp only [Outcome.resp.injEq] at hr
        subst hr
        simp [callsRemainingReported] at hrem
  | unknown a0 => exact absurd hr (by simp [handle])

/-- C3: along every action sequence from a fresh session,
`0 ≤ tool_calls_made ≤ max_tool_calls` holds after each action, and every
response that reports `calls_remaining` reports exactly
`max_tool_calls - tool_calls_made`, which is non-negative. -/
theorem C3_budget_invariant {M : Type} (ext : Ext M) (acts : List ActionData)
    (a : ActionData) :
    (0 ≤ (runActions ext initSession acts).tool_calls_made ∧
      (runActions ext initSession acts).tool_calls_made ≤
        (runActions ext initSession acts).max_tool_calls) ∧
    (∀ (r : Response M) (rem : Int),
      (handle ext (runActions ext initSession acts) a).1 = .resp r →
      callsRemainingReported r = some rem →
      rem = ((handle ext (runActions ext initSession acts) a).2.max_tool_calls : Int) -
        ((handle ext (runActions ext initSession acts) a).2.tool_calls_made : Int) ∧
      0 ≤ rem) := by
  have hinv := runActions_calls_le ext acts initSession (by simp [initSession])
  exact ⟨⟨Nat.zero_le _, hinv⟩,
    handle_calls_remaining ext (runActions ext initSession acts) a hinv⟩

/-- Witness for C3: after an empty history, `get_initial_state` reports
`calls_remaining = 10 = 10 - 0 ≥ 0`. -/
theorem C3_budget_invariant_witness :
    (0 ≤ (runActions extTriv initSession []).tool_calls_made ∧
      (runActions extTriv initSession []).tool_calls_made ≤
        (runActions extTriv initSession []).max_tool_calls) ∧
    ((10 : Int) =
      ((handle extTriv (runActions extTriv initSession []) .get_initial_state).2.max_tool_calls : Int) -
      ((handle extTriv (runActions extTriv initSession []) .get_initial_state).2.tool_calls_made : Int) ∧
      (0 : Int) ≤ 10) :=
  ⟨(C3_budget_invariant extTriv [] .get_initial_state).1,
   (C3_budget_invariant extTriv [] .get_initial_state).2 _ 10 rfl rfl⟩

/-- C7 counterexample: two protocol-level failures are not surfaced as
error responses — `submit_diagnosis` with a missing diagnosis raises an
uncaught `AttributeError` after first marking the fresh session completed
(so the failed action also corrupts the session), and an unknown action
produces no response at all rather than one carrying an `error` field. -/
theorem C7_counterexample :
    (handle extTriv initSession (.submit_diagnosis none)).1 =
      .raised "AttributeError: NoneType has no attribute lower" ∧
    (handle extTriv initSession (.submit_diagnosis none)).2.completed = true ∧
    handle extTriv initSession (.unknown (some "bogus_action")) =
      (.noResponse, initSession) :=
  ⟨rfl, rfl, rfl⟩

/-- C7 as amended: the precondition failures that are actually checked —
session completed, budget exhausted, missing tool name, missing system
prompt, already-completed submission — are each surfaced as a non-success
response carrying an `error` field and leave the session state unchanged
(local, never fatal); a missing diagnosis and an unknown action are not
(see the counterexample). -/
theorem C7_protocol_failures_amended {M : Type} (ext : Ext M) (s : Session) :
    (s.completed = true → ∀ tc : ToolCallData,
      use_tool ext s tc = (.protoError "Environment completed", s)) ∧
    (s.completed = false → s.max_tool_calls ≤ s.tool_calls_made →
      ∀ tc : ToolCallData,
        use_tool ext s tc = (.protoError "Max tool calls exceeded", s)) ∧
    (s.completed = false → s.tool_calls_made < s.max_tool_calls →
      ∀ tc : ToolCallData, truthyStr tc.name = false →
        use_tool ext s tc = (.protoError "Missing tool name", s)) ∧
    (∀ p : Option String, truthyStr p = false →
      handle ext s (.update_system_prompt p) =
        (.resp (.protoError "No system prompt provided"), s)) ∧
    (s.completed = true → ∀ d : Option String,
      submit_diagnosis (M := M) s d =
        (.resp (.protoError "Already completed"), s)) := by
  refine ⟨fun h tc => ?_, fun h hb tc => ?_, fun h hb tc hn => ?_, fun p hp => ?_,
    fun h d => ?_⟩
  · simp [use_tool, h]
  · simp [use_tool, h, hb]
  · simp [use_tool, h, Nat.not_le.mpr hb, hn]
  · simp [handle, hp]
  · simp [submit_diagnosis, h]

/-- Witness for the amended C7: each checked failure evaluated concretely,
returning its error response with the state intact. -/
theorem C7_protocol_failures_amended_witness :
    (use_tool extTriv completedSession ⟨some "query_logs", {}⟩ =
      (.protoError "Environment completed", completedSession)) ∧
    (use_tool extTriv exhaustedSession ⟨some "query_logs", {}⟩ =
      (.protoError "Max tool calls exceeded", exhaustedSession)) ∧
    (use_tool extTriv initSession ⟨some "", {}⟩ =
      (.protoError "Missing tool name", initSession)) ∧
    (handle extTriv initSession (.update_system_prompt (some "")) =
      (.resp (.protoError "No system prompt provided"), initSession)) ∧
    (submit_diagnosis (M := Unit) completedSession none =
      (.resp (.protoError "Already completed"), completedSession)) :=
  ⟨(C7_protocol_failures_amended extTriv completedSession).1 rfl _,
   (C7_protocol_failures_amended extTriv exhaustedSession).2.1 rfl (by decide) _,
   (C7_protocol_failures_amended extTriv initSession).2.2.1 rfl (by decide) _ rfl,
   (C7_protocol_failures_amended extTriv initSession).2.2.2.1 (some "") rfl,
   (C7_protocol_failures_amended extTriv completedSession).2.2.2.2 rfl none⟩

end OnCall
